import Mathlib

/-!
Formal model of `src/generalized_advantage_estimation.py`, an actor-critic
policy-gradient training loop for a discrete-action control task.

Real-valued data (rewards, log-probabilities, value estimates, losses) is
modelled by `ℚ`; the external collaborators (gym environment, the two MLP
models together with the categorical sampler, and the random source) are
modelled as an explicit record of fallible functions, with environment state
`S` and random-source state `R` threaded explicitly.  The unbounded
`while True` rollout loop is modelled with a fuel parameter: `none` stands
for a rollout that did not terminate within the given fuel (the source
documents that a never-terminating environment hangs).  Errors raised by a
collaborator are modelled with `Except`; the Python code contains no
`try`/`except`, which the model mirrors by propagating every `.error`.
-/

/-- Observations are flat numeric vectors (`np.ndarray` in the source). -/
abbrev Observation := List ℚ

/-- Arithmetic mean of a one-dimensional tensor, as computed by
`torch.Tensor.mean()` / `np.mean` on a nonempty list of values.  (On the
empty list the model yields the junk value `0`; the program never takes a
mean of an empty batch, since an epoch always holds 200 episodes of at
least one timestep each.) -/
def listMean (l : List ℚ) : ℚ := l.sum / (l.length : ℚ)

/-- Source function `calculate_value_fn_loss`.

The critic `value_function_model` is built with `out_features=1`, so each
entry of `epoch_state_value_estimates` is a one-element tensor; the model
stores the single scalar inside it.  `torch.stack` therefore produces a
tensor of shape `(N, 1)`, and `value_estimates - returns` with the
shape-`(M,)` returns tensor broadcasts to shape `(N, M)`: entry `(i, j)` is
`estimate i - return j`.  `.mean()` then averages all `N * M` squared
entries.  This is the actual PyTorch semantics of the source lines
`value_estimates = torch.stack(...); ((value_estimates - returns)**2).mean()`,
not a paired mean squared error. -/
def calculate_value_fn_loss (epoch_action_returns epoch_state_value_estimates : List ℚ) : ℚ :=
  (epoch_state_value_estimates.map
      (fun v => (epoch_action_returns.map (fun r => (v - r) ^ 2)).sum)).sum /
    ((epoch_state_value_estimates.length : ℚ) * (epoch_action_returns.length : ℚ))

/-- Source function `calculate_policy_fn_loss`:
`-(epoch_log_probability_actions * epoch_action_rewards).mean()`.
Both arguments are one-dimensional tensors of the same length (each
log-probability is a zero-dimensional tensor, stacked into shape `(N,)`),
so `*` is the elementwise product, modelled by `List.zipWith`. -/
def calculate_policy_fn_loss (epoch_log_probability_actions epoch_action_rewards : List ℚ) : ℚ :=
  -(listMean (List.zipWith (fun lp r => lp * r) epoch_log_probability_actions epoch_action_rewards))

/-- The external collaborators of the training loop, over an error type `ε`,
an environment-state type `S` and a random-source-state type `R`:
* `reset`/`step` model the gym environment (`env.reset()` and
  `env.step(action)`; the ignored `info` component of the step result is
  omitted);
* `valueModel` models `value_function_model(torch.as_tensor(observation))`,
  returning the scalar inside the one-element output tensor;
* `policyAct` models `get_policy(policy_function_model, observation)`
  followed by `get_action(policy)`: it consumes random state and returns the
  sampled action index and its log-probability;
* `seedEnv`/`seedRng` model `env.seed(n)` and `torch.manual_seed(n)`. -/
structure Collab (ε S R : Type) where
  reset : S → Except ε (Observation × S)
  step : S → Nat → Except ε (Observation × ℚ × Bool × S)
  valueModel : Observation → Except ε ℚ
  policyAct : Observation → R → Except ε (Nat × ℚ × R)
  seedEnv : Nat → S
  seedRng : Nat → R

variable {ε S R : Type}

/-- The `while True` rollout loop of `run_one_episode`, with fuel.  Each
iteration queries the critic on the current observation, samples an action
with its log-probability, steps the environment, records
`(reward, log-probability, value estimate)`, and stops when the environment
reports `done`.  Returns the three per-timestep lists in time order together
with the final environment and random state; `none` means the fuel ran out
before the environment terminated. -/
def runEpisodeLoop (C : Collab ε S R) :
    Nat → Observation → S → R → Except ε (Option (List ℚ × List ℚ × List ℚ × S × R))
  | 0, _, _, _ => .ok none
  | fuel + 1, obs, s, rng =>
    match C.valueModel obs with
    | .error e => .error e
    | .ok v =>
      match C.policyAct obs rng with
      | .error e => .error e
      | .ok (a, lp, rng₁) =>
        match C.step s a with
        | .error e => .error e
        | .ok (obs₁, reward, done, s₁) =>
          if done then .ok (some ([reward], [lp], [v], s₁, rng₁))
          else
            match runEpisodeLoop C fuel obs₁ s₁ rng₁ with
            | .error e => .error e
            | .ok none => .ok none
            | .ok (some (rs, ls, vs, s₂, rng₂)) =>
              .ok (some (reward :: rs, lp :: ls, v :: vs, s₂, rng₂))

/-- Source function `run_one_episode`: reset the environment, run the rollout
loop, then compute `episode_return = sum(rewards)` and
`action_returns = [episode_return] * len(rewards)`.  The result tuple is
`(action_returns, log_probability_actions, state_value_estimates,
episode_return)` plus the threaded environment and random state. -/
def run_one_episode (C : Collab ε S R) (fuel : Nat) (s : S) (rng : R) :
    Except ε (Option (List ℚ × List ℚ × List ℚ × ℚ × S × R)) :=
  match C.reset s with
  | .error e => .error e
  | .ok (obs, s₁) =>
    match runEpisodeLoop C fuel obs s₁ rng with
    | .error e => .error e
    | .ok none => .ok none
    | .ok (some (rewards, lps, vals, s₂, rng₂)) =>
      .ok (some (List.replicate rewards.length rewards.sum, lps, vals, rewards.sum, s₂, rng₂))

/-- Which of the two networks / optimizers an update operation touches. -/
inductive NetKind : Type
  | value
  | policy
deriving DecidableEq

/-- One mutating gradient operation performed by the epoch update step:
a backward pass of a loss, an optimizer step, or a `zero_grad()` call. -/
inductive GradOp : Type
  | backward (net : NetKind) (loss : ℚ)
  | stepOpt (net : NetKind)
  | zeroGrad (net : NetKind)
deriving DecidableEq

/-- Returns `true` exactly on optimizer-step operations. -/
def GradOp.isStepOp : GradOp → Bool
  | .stepOpt _ => true
  | _ => false

/-- Returns `true` exactly on `zero_grad` operations. -/
def GradOp.isZeroOp : GradOp → Bool
  | .zeroGrad _ => true
  | _ => false

/-- Returns `true` exactly on backward passes. -/
def GradOp.isBackwardOp : GradOp → Bool
  | .backward _ _ => true
  | _ => false

/-- The ordered sequence of mutating operations performed at the end of
`train_one_epoch` (source lines 210–217):
`value_function_loss.backward(); value_function_optimizer.step();
policy_function_loss.backward(); policy_function_optimizer.step();
value_function_optimizer.zero_grad(); policy_function_optimizer.zero_grad()`. -/
def updateOps (valueLoss policyLoss : ℚ) : List GradOp :=
  [.backward .value valueLoss, .stepOpt .value,
   .backward .policy policyLoss, .stepOpt .policy,
   .zeroGrad .value, .zeroGrad .policy]

/-- Everything `train_one_epoch` computes: the concatenated epoch batch, the
per-episode total returns, the two losses, the ordered gradient-operation
trace of the update step, and the mean return the function returns. -/
structure EpochResult where
  actionReturns : List ℚ
  logProbs : List ℚ
  valueEstimates : List ℚ
  episodeReturns : List ℚ
  policyLoss : ℚ
  valueLoss : ℚ
  trace : List GradOp
  meanReturn : ℚ
deriving DecidableEq

/-- The `for _ in range(200)` episode loop of `train_one_epoch`, carrying the
four accumulators `epoch_action_returns`, `epoch_log_probability_actions`,
`epoch_state_value_estimates`, `epoch_episode_returns` (extended with `+=` /
`.append` exactly as in the source). -/
def episodesLoop (C : Collab ε S R) (fuel : Nat) :
    Nat → S → R → List ℚ → List ℚ → List ℚ → List ℚ →
    Except ε (Option (List ℚ × List ℚ × List ℚ × List ℚ × S × R))
  | 0, s, rng, aR, aL, aV, aE => .ok (some (aR, aL, aV, aE, s, rng))
  | n + 1, s, rng, aR, aL, aV, aE =>
    match run_one_episode C fuel s rng with
    | .error e => .error e
    | .ok none => .ok none
    | .ok (some (ars, lps, vals, er, s₁, rng₁)) =>
      episodesLoop C fuel n s₁ rng₁ (aR ++ ars) (aL ++ lps) (aV ++ vals) (aE ++ [er])

/-- Source function `train_one_epoch`: run 200 episodes, concatenate their
per-timestep data, compute the two losses on the whole batch, perform the
update-step operations of `updateOps`, and return `np.mean` of the 200
per-episode returns.  The source function returns only the mean; the model
additionally exposes the batch, the losses and the operation trace so that
statements about the epoch's internal behaviour can be made. -/
def train_one_epoch (C : Collab ε S R) (fuel : Nat) (s : S) (rng : R) :
    Except ε (Option (EpochResult × S × R)) :=
  match episodesLoop C fuel 200 s rng [] [] [] [] with
  | .error e => .error e
  | .ok none => .ok none
  | .ok (some (aR, aL, aV, aE, s₁, rng₁)) =>
    let policyLoss := calculate_policy_fn_loss aL aR
    let valueLoss := calculate_value_fn_loss aR aV
    .ok (some ({ actionReturns := aR, logProbs := aL, valueEstimates := aV,
                 episodeReturns := aE, policyLoss := policyLoss, valueLoss := valueLoss,
                 trace := updateOps valueLoss policyLoss,
                 meanReturn := listMean aE }, s₁, rng₁))

/-- The per-episode view of running `n` episodes in sequence: the list, in
episode order, of each episode's `(action_returns, log_probabilities,
value_estimates, episode_return)`.  Used to state what `episodesLoop`
concatenates. -/
def runEpisodes (C : Collab ε S R) (fuel : Nat) :
    Nat → S → R → Except ε (Option (List (List ℚ × List ℚ × List ℚ × ℚ) × S × R))
  | 0, s, rng => .ok (some ([], s, rng))
  | n + 1, s, rng =>
    match run_one_episode C fuel s rng with
    | .error e => .error e
    | .ok none => .ok none
    | .ok (some (ars, lps, vals, er, s₁, rng₁)) =>
      match runEpisodes C fuel n s₁ rng₁ with
      | .error e => .error e
      | .ok none => .ok none
      | .ok (some (rest, s₂, rng₂)) => .ok (some ((ars, lps, vals, er) :: rest, s₂, rng₂))

/-- Python's `'%3d' % n` for a nonnegative integer: the decimal digits,
left-padded with spaces to width at least 3. -/
def formatInt3 (n : Nat) : String :=
  (List.replicate (3 - (toString n).length) ' ').asString ++ toString n

/-- Round a rational to the nearest integer, ties to even — the rounding used
by C `printf`-style fixed-point formatting (which the Python `%` operator
delegates to). -/
def roundHalfEven (q : ℚ) : ℤ :=
  if Int.fract q < 1 / 2 then ⌊q⌋
  else if 1 / 2 < Int.fract q then ⌊q⌋ + 1
  else if ⌊q⌋ % 2 = 0 then ⌊q⌋ else ⌊q⌋ + 1

/-- Python's `'%.3f' % q`, modelled on exact rationals: the value rounded to
three decimal places, printed with a sign, an integer part, a dot, and
exactly three decimal digits. -/
def formatFixed3 (q : ℚ) : String :=
  (if roundHalfEven (q * 1000) < 0 then "-" else "") ++
      toString ((roundHalfEven (q * 1000)).natAbs / 1000) ++ "." ++
    String.mk [Nat.digitChar ((roundHalfEven (q * 1000)).natAbs % 1000 / 100),
               Nat.digitChar ((roundHalfEven (q * 1000)).natAbs / 10 % 10),
               Nat.digitChar ((roundHalfEven (q * 1000)).natAbs % 10)]

/-- The line `train` prints after an epoch:
`print('epoch: %3d \t return: %.3f' % (epoch, average_return))`. -/
def formatLine (epoch : Nat) (averageReturn : ℚ) : String :=
  "epoch: " ++ formatInt3 epoch ++ " \t return: " ++ formatFixed3 averageReturn

/-- The `for epoch in range(epochs)` loop of `train`: run one epoch, append
the printed line to the collected standard output, and continue with the
updated environment and random state.  `epoch` is the zero-based index of
the next epoch to run. -/
def trainLoop (C : Collab ε S R) (fuel : Nat) :
    Nat → Nat → S → R → List String → Except ε (Option (List String × S × R))
  | 0, _, s, rng, lines => .ok (some (lines, s, rng))
  | n + 1, epoch, s, rng, lines =>
    match train_one_epoch C fuel s rng with
    | .error e => .error e
    | .ok none => .ok none
    | .ok (some (res, s₁, rng₁)) =>
      trainLoop C fuel n (epoch + 1) s₁ rng₁ (lines ++ [formatLine epoch res.meanReturn])

/-- Source function `train`: seed the environment and the shared random
source with `0` (`torch.manual_seed(0); env.seed(0)`), then run `epochs`
epochs, printing one line per epoch.  Model construction and optimizer
construction are internal to the opaque collaborators.  The result is the
collected standard output together with the final environment and random
state. -/
def train (C : Collab ε S R) (fuel epochs : Nat) : Except ε (Option (List String × S × R)) :=
  trainLoop C fuel epochs 0 (C.seedEnv 0) (C.seedRng 0) []

/-- A concrete deterministic collaborator used to evaluate the model on
closed inputs: every episode lasts exactly one timestep with reward `1`,
the critic always estimates `5`, and the sampled action always has
log-probability `-1`. -/
def Ctriv : Collab String Nat Nat where
  reset := fun s => .ok ([], s)
  step := fun s _ => .ok ([], 1, true, s)
  valueModel := fun _ => .ok 5
  policyAct := fun _ rng => .ok (0, -1, rng)
  seedEnv := fun n => n
  seedRng := fun n => n

/-- A concrete collaborator whose environment raises on every `step` call. -/
def CbadStep : Collab String Nat Nat where
  reset := fun s => .ok ([], s)
  step := fun _ _ => .error "boom"
  valueModel := fun _ => .ok 5
  policyAct := fun _ rng => .ok (0, -1, rng)
  seedEnv := fun n => n
  seedRng := fun n => n

/-- Value-function loss as the spec describes it (a paired mean squared
error between each timestep's value estimate and its corresponding return
target), stated for comparison with the source's `calculate_value_fn_loss`. -/
def value_fn_loss_spec (returns estimates : List ℚ) : ℚ :=
  listMean (List.zipWith (fun v r => (v - r) ^ 2) estimates returns)

/-- Policy loss as claim C1 describes it: the critic's estimates subtracted
from the returns as a baseline before the policy-gradient mean (modelled
from the spec's words, for comparison with what the source computes). -/
def policy_loss_with_baseline (lps rets vals : List ℚ) : ℚ :=
  calculate_policy_fn_loss lps (List.zipWith (fun r v => r - v) rets vals)

/-- Projection of an epoch outcome onto its `EpochResult`, for stating
closed evaluations. -/
def epochResultOf (r : Except String (Option (EpochResult × Nat × Nat))) : Option EpochResult :=
  match r with
  | .ok (some (res, _, _)) => some res
  | _ => none

/-- The epoch result produced by `train_one_epoch` under the constant
collaborator: 200 one-step episodes of return 1, log-probability −1 and
value estimate 5, giving policy loss `1`, (broadcast) value loss `16` and
mean return `1`. -/
def resTriv : EpochResult where
  actionReturns := List.replicate 200 1
  logProbs := List.replicate 200 (-1)
  valueEstimates := List.replicate 200 5
  episodeReturns := List.replicate 200 1
  policyLoss := 1
  valueLoss := 16
  trace := updateOps 16 1
  meanReturn := 1

/-- The accumulator-passing episode loop computes the concatenation, in
episode order, of the per-episode data produced by `runEpisodes`. -/
theorem episodesLoop_eq_runEpisodes (C : Collab ε S R) (fuel : Nat) :
    ∀ (n : Nat) (s : S) (rng : R) (aR aL aV aE : List ℚ),
      episodesLoop C fuel n s rng aR aL aV aE =
        match runEpisodes C fuel n s rng with
        | .error e => .error e
        | .ok none => .ok none
        | .ok (some (eps, s₁, rng₁)) =>
          .ok (some (aR ++ (eps.map fun t => t.1).flatten, aL ++ (eps.map fun t => t.2.1).flatten,
                     aV ++ (eps.map fun t => t.2.2.1).flatten, aE ++ eps.map fun t => t.2.2.2,
                     s₁, rng₁))
  | 0, s, rng, aR, aL, aV, aE => by simp [episodesLoop, runEpisodes]
  | n + 1, s, rng, aR, aL, aV, aE => by
    have ih := episodesLoop_eq_runEpisodes C fuel n
    simp only [episodesLoop, runEpisodes]
    cases h₁ : run_one_episode C fuel s rng with
    | error e => rfl
    | ok o =>
      cases o with
      | none => rfl
      | some p =>
        obtain ⟨ars, lps, vals, er, s₁, rng₁⟩ := p
        refine (ih s₁ rng₁ (aR ++ ars) (aL ++ lps) (aV ++ vals) (aE ++ [er])).trans ?_
        cases h₂ : runEpisodes C fuel n s₁ rng₁ with
        | error e => simp [h₂]
        | ok o₂ =>
          cases o₂ with
          | none => simp [h₂]
          | some q =>
            obtain ⟨eps, s₂, rng₂⟩ := q
            simp [h₂, List.append_assoc]

/-- A successful run of `n` episodes yields exactly `n` episode records. -/
theorem runEpisodes_length (C : Collab ε S R) (fuel : Nat) :
    ∀ (n : Nat) (s : S) (rng : R) (eps : List (List ℚ × List ℚ × List ℚ × ℚ)) (s₁ : S) (rng₁ : R),
      runEpisodes C fuel n s rng = .ok (some (eps, s₁, rng₁)) → eps.length = n
  | 0, s, rng, eps, s₁, rng₁ => by
    intro h
    simp [runEpisodes] at h
    simp [h.1]
  | n + 1, s, rng, eps, s₁, rng₁ => by
    intro h
    simp only [runEpisodes] at h
    cases h₁ : run_one_episode C fuel s rng with
    | error e => simp [h₁] at h
    | ok o =>
      cases o with
      | none => simp [h₁] at h
      | some p =>
        obtain ⟨ars, lps, vals, er, s₂, rng₂⟩ := p
        simp only [h₁] at h
        cases h₂ : runEpisodes C fuel n s₂ rng₂ with
        | error e => simp [h₂] at h
        | ok o₂ =>
          cases o₂ with
          | none => simp [h₂] at h
          | some q =>
            obtain ⟨rest, s₃, rng₃⟩ := q
            simp [h₂] at h
            obtain ⟨he, -, -⟩ := h
            subst he
            simp [runEpisodes_length C fuel n s₂ rng₂ rest s₃ rng₃ h₂]

/-- Loop invariant of the rollout loop: a successful rollout records the
three per-timestep lists with equal lengths, and at least one timestep (the
loop body runs once before `done` is first checked). -/
theorem runEpisodeLoop_lengths (C : Collab ε S R) :
    ∀ (fuel : Nat) (obs : Observation) (s : S) (rng : R) (rs ls vs : List ℚ) (s₁ : S) (rng₁ : R),
      runEpisodeLoop C fuel obs s rng = .ok (some (rs, ls, vs, s₁, rng₁)) →
      rs.length = ls.length ∧ vs.length = rs.length ∧ 1 ≤ rs.length
  | 0, obs, s, rng, rs, ls, vs, s₁, rng₁ => by
    intro h
    simp [runEpisodeLoop] at h
  | fuel + 1, obs, s, rng, rs, ls, vs, s₁, rng₁ => by
    intro h
    simp only [runEpisodeLoop] at h
    cases hv : C.valueModel obs with
    | error e => simp [hv] at h
    | ok v =>
      simp only [hv] at h
      cases ha : C.policyAct obs rng with
      | error e => simp [ha] at h
      | ok pa =>
        obtain ⟨a, lp, rng₂⟩ := pa
        simp only [ha] at h
        cases hs : C.step s a with
        | error e => simp [hs] at h
        | ok st =>
          obtain ⟨obs₁, reward, done, s₂⟩ := st
          simp only [hs] at h
          cases done with
          | true =>
            simp at h
            obtain ⟨h1, h2, h3, -, -⟩ := h
            subst h1; subst h2; subst h3
            simp
          | false =>
            simp only [Bool.false_eq_true, if_false] at h
            cases hrec : runEpisodeLoop C fuel obs₁ s₂ rng₂ with
            | error e => simp [hrec] at h
            | ok o =>
              cases o with
              | none => simp [hrec] at h
              | some p =>
                obtain ⟨rs₂, ls₂, vs₂, s₃, rng₃⟩ := p
                simp [hrec] at h
                obtain ⟨h1, h2, h3, -, -⟩ := h
                subst h1; subst h2; subst h3
                have ih := runEpisodeLoop_lengths C fuel obs₁ s₂ rng₂ rs₂ ls₂ vs₂ s₃ rng₃ hrec
                simp [ih.1, ih.2.1]

/-- If the first `j` episodes of an epoch succeed and episode `j + 1` raises
an error, the whole episode loop raises that same error (there is no retry
or partial-epoch recovery in the source). -/
theorem episodesLoop_error (C : Collab ε S R) (fuel : Nat) (e : ε) :
    ∀ (j n : Nat) (s : S) (rng : R) (aR aL aV aE : List ℚ)
      (pre : List (List ℚ × List ℚ × List ℚ × ℚ)) (s₁ : S) (rng₁ : R),
      j < n →
      runEpisodes C fuel j s rng = .ok (some (pre, s₁, rng₁)) →
      run_one_episode C fuel s₁ rng₁ = .error e →
      episodesLoop C fuel n s rng aR aL aV aE = .error e
  | 0, n, s, rng, aR, aL, aV, aE, pre, s₁, rng₁ => by
    intro hj hpre herr
    simp [runEpisodes] at hpre
    obtain ⟨-, h1, h2⟩ := hpre
    subst h1; subst h2
    match n, hj with
    | n + 1, _ => simp [episodesLoop, herr]
  | j + 1, n, s, rng, aR, aL, aV, aE, pre, s₁, rng₁ => by
    intro hj hpre herr
    simp only [runEpisodes] at hpre
    cases h₁ : run_one_episode C fuel s rng with
    | error e₂ => simp [h₁] at hpre
    | ok o =>
      cases o with
      | none => simp [h₁] at hpre
      | some p =>
        obtain ⟨ars, lps, vals, er, s₂, rng₂⟩ := p
        simp only [h₁] at hpre
        cases h₂ : runEpisodes C fuel j s₂ rng₂ with
        | error e₂ => simp [h₂] at hpre
        | ok o₂ =>
          cases o₂ with
          | none => simp [h₂] at hpre
          | some q =>
            obtain ⟨rest, s₃, rng₃⟩ := q
            simp [h₂] at hpre
            obtain ⟨-, h1, h2⟩ := hpre
            subst h1; subst h2
            match n, hj with
            | n + 1, hj =>
              have ih := episodesLoop_error C fuel e j n s₂ rng₂
                (aR ++ ars) (aL ++ lps) (aV ++ vals) (aE ++ [er]) rest _ _
                (by omega) h₂ herr
              simp [episodesLoop, h₁, ih]

/-- Flattening `n` copies of a singleton list gives `n` copies of its
element. -/
theorem flatten_replicate_singleton {α : Type} (a : α) :
    ∀ n : Nat, (List.replicate n [a]).flatten = List.replicate n a
  | 0 => rfl
  | n + 1 => by simp [List.replicate_succ, flatten_replicate_singleton a n]

/-- Under the constant collaborator every episode takes exactly one timestep
with reward `1`, log-probability `-1` and value estimate `5`. -/
theorem ctriv_episode (fuel s rng : Nat) :
    run_one_episode Ctriv (fuel + 1) s rng = .ok (some ([1], [-1], [5], 1, s, rng)) := by
  simp [run_one_episode, runEpisodeLoop, Ctriv]

/-- Under the constant collaborator, running `n` episodes succeeds and yields
`n` identical episode records. -/
theorem ctriv_runEpisodes (fuel : Nat) :
    ∀ (n s rng : Nat),
      runEpisodes Ctriv (fuel + 1) n s rng =
        .ok (some (List.replicate n ([1], [-1], [5], (1 : ℚ)), s, rng))
  | 0, s, rng => by simp [runEpisodes]
  | n + 1, s, rng => by
    simp [runEpisodes, ctriv_episode, ctriv_runEpisodes fuel n s rng, List.replicate_succ]

/-- Evaluation of one full epoch under the constant collaborator. -/
theorem ctriv_epoch (fuel s rng : Nat) :
    train_one_epoch Ctriv (fuel + 1) s rng = .ok (some (resTriv, s, rng)) := by
  have h := episodesLoop_eq_runEpisodes Ctriv (fuel + 1) 200 s rng [] [] [] []
  rw [ctriv_runEpisodes fuel 200 s rng] at h
  simp only [List.map_replicate, List.nil_append, flatten_replicate_singleton] at h
  rw [train_one_epoch, h]
  have hp : calculate_policy_fn_loss (List.replicate 200 (-1)) (List.replicate 200 1) = 1 := by
    rw [calculate_policy_fn_loss, List.zipWith_replicate, listMean, min_self,
      List.sum_replicate, nsmul_eq_mul, List.length_replicate]
    norm_num
  have hv : calculate_value_fn_loss (List.replicate 200 1) (List.replicate 200 5) = 16 := by
    rw [calculate_value_fn_loss, List.map_replicate, List.map_replicate,
      List.sum_replicate, List.sum_replicate, nsmul_eq_mul, nsmul_eq_mul,
      List.length_replicate, List.length_replicate]
    norm_num
  have hm : listMean (List.replicate 200 (1 : ℚ)) = 1 := by
    rw [listMean, List.sum_replicate, nsmul_eq_mul, List.length_replicate]
    norm_num
  show Except.ok (some
      (({ actionReturns := List.replicate 200 1,
          logProbs := List.replicate 200 (-1),
          valueEstimates := List.replicate 200 5,
          episodeReturns := List.replicate 200 1,
          policyLoss := calculate_policy_fn_loss (List.replicate 200 (-1)) (List.replicate 200 1),
          valueLoss := calculate_value_fn_loss (List.replicate 200 1) (List.replicate 200 5),
          trace := updateOps (calculate_value_fn_loss (List.replicate 200 1) (List.replicate 200 5))
            (calculate_policy_fn_loss (List.replicate 200 (-1)) (List.replicate 200 1)),
          meanReturn := listMean (List.replicate 200 1) } : EpochResult), s, rng)) =
    Except.ok (some (resTriv, s, rng))
  rw [hp, hv, hm]
  rfl

/-- A successful run of the epoch loop of `train` starting at epoch index
`epoch` appends, to the already-collected output, one formatted line per
epoch: line `i` (zero-based within the run) is `formatLine (epoch + i)`
applied to that epoch's mean return. -/
theorem trainLoop_lines (C : Collab ε S R) (fuel : Nat) :
    ∀ (n epoch : Nat) (s : S) (rng : R) (acc lines : List String) (s₁ : S) (rng₁ : R),
      trainLoop C fuel n epoch s rng acc = .ok (some (lines, s₁, rng₁)) →
      ∃ ms : List ℚ, ms.length = n ∧
        lines = acc ++ List.zipWith formatLine (List.range' epoch n) ms
  | 0, epoch, s, rng, acc, lines, s₁, rng₁ => by
    intro h
    simp [trainLoop] at h
    exact ⟨[], rfl, by simp [h.1]⟩
  | n + 1, epoch, s, rng, acc, lines, s₁, rng₁ => by
    intro h
    simp only [trainLoop] at h
    cases h₁ : train_one_epoch C fuel s rng with
    | error e => simp [h₁] at h
    | ok o =>
      cases o with
      | none => simp [h₁] at h
      | some p =>
        obtain ⟨res, s₂, rng₂⟩ := p
        simp only [h₁] at h
        obtain ⟨ms, hlen, hl⟩ := trainLoop_lines C fuel n (epoch + 1) s₂ rng₂
          (acc ++ [formatLine epoch res.meanReturn]) lines s₁ rng₁ h
        refine ⟨res.meanReturn :: ms, by simp [hlen], ?_⟩
        rw [hl, List.range'_succ]
        simp [List.append_assoc]

/-- The fixed-point formatter always produces an integer part, a dot, and
exactly three decimal digits. -/
theorem formatFixed3_decomp (q : ℚ) :
    ∃ a b : String, formatFixed3 q = a ++ "." ++ b ∧ b.length = 3 :=
  ⟨(if roundHalfEven (q * 1000) < 0 then "-" else "") ++
      toString ((roundHalfEven (q * 1000)).natAbs / 1000),
    String.mk [Nat.digitChar ((roundHalfEven (q * 1000)).natAbs % 1000 / 100),
               Nat.digitChar ((roundHalfEven (q * 1000)).natAbs / 10 % 10),
               Nat.digitChar ((roundHalfEven (q * 1000)).natAbs % 10)],
    rfl, rfl⟩

/-- Claim C2: for every episode whose rollout loop terminates with a
non-empty reward sequence, `run_one_episode` returns a per-timestep return
sequence of length equal to the number of timesteps in which every element
equals the sum of the episode's rewards, and reports that same sum as the
scalar episode return. -/
theorem episode_returns_broadcast_sum (C : Collab ε S R) (fuel : Nat) (s : S) (rng : R)
    (obs : Observation) (s₁ s₂ : S) (rng₂ : R) (rewards lps vals : List ℚ)
    (hreset : C.reset s = .ok (obs, s₁))
    (hloop : runEpisodeLoop C fuel obs s₁ rng = .ok (some (rewards, lps, vals, s₂, rng₂)))
    (hne : rewards ≠ []) :
    run_one_episode C fuel s rng =
      .ok (some (List.replicate rewards.length rewards.sum, lps, vals, rewards.sum, s₂, rng₂)) ∧
    (List.replicate rewards.length rewards.sum).length = rewards.length ∧
    ∀ x ∈ List.replicate rewards.length rewards.sum, x = rewards.sum := by
  refine ⟨by simp [run_one_episode, hreset, hloop], List.length_replicate _ _, ?_⟩
  intro x hx
  exact List.eq_of_mem_replicate hx

/-- Witness for C2 at the constant one-step collaborator. -/
theorem episode_returns_broadcast_sum_witness :
    Ctriv.reset 0 = .ok ([], 0) ∧
    runEpisodeLoop Ctriv 1 [] 0 0 = .ok (some ([1], [-1], [5], 0, 0)) ∧
    ([1] : List ℚ) ≠ [] ∧
    run_one_episode Ctriv 1 0 0 =
      .ok (some (List.replicate ([(1 : ℚ)]).length ([(1 : ℚ)]).sum, [-1], [5],
        ([(1 : ℚ)]).sum, 0, 0)) ∧
    (List.replicate ([(1 : ℚ)]).length ([(1 : ℚ)]).sum).length = ([(1 : ℚ)]).length :=
  ⟨rfl, rfl, by simp,
    (episode_returns_broadcast_sum Ctriv 1 0 0 [] 0 0 0 [1] [-1] [5] rfl rfl (by simp)).1,
    (episode_returns_broadcast_sum Ctriv 1 0 0 [] 0 0 0 [1] [-1] [5] rfl rfl (by simp)).2.1⟩

/-- Claim C3: for a non-empty batch of log-probabilities with equally many
returns, the policy loss is the negated arithmetic mean — sum divided by the
batch size — of the elementwise products, and on the single-timestep batch
`log_prob = -1/2`, `return = 2` it equals `1`. -/
theorem policy_loss_neg_mean (lps rets : List ℚ)
    (hne : lps ≠ []) (hlen : lps.length = rets.length) :
    calculate_policy_fn_loss lps rets =
      -((List.zipWith (fun lp r => lp * r) lps rets).sum / (lps.length : ℚ)) ∧
    calculate_policy_fn_loss [-(1 / 2)] [2] = 1 := by
  constructor
  · rw [calculate_policy_fn_loss, listMean, List.length_zipWith, hlen, min_self]
  · norm_num [calculate_policy_fn_loss, listMean]

/-- Witness for C3 at the single-timestep batch from the spec. -/
theorem policy_loss_neg_mean_witness :
    calculate_policy_fn_loss [-(1 / 2)] [2] =
      -((List.zipWith (fun lp r => lp * r) [-(1 / 2)] [2]).sum / (([-(1 / 2)] : List ℚ).length : ℚ)) ∧
    calculate_policy_fn_loss [-(1 / 2)] [2] = 1 :=
  policy_loss_neg_mean [-(1 / 2)] [2] (by simp) rfl

/-- Claim C9: with equal collaborators (identical model parameters and
environment), equal initial environment states and equal random-source
states, `train_one_epoch` produces identical results — in particular the
same mean episode return — and two runs of the training driver coincide;
`train` itself pins the seeds by starting from `seedEnv 0` and `seedRng 0`. -/
theorem epoch_deterministic_under_seed (C₁ C₂ : Collab ε S R) (fuel epochs : Nat)
    (s₁ s₂ : S) (r₁ r₂ : R) (hC : C₁ = C₂) (hs : s₁ = s₂) (hr : r₁ = r₂) :
    train_one_epoch C₁ fuel s₁ r₁ = train_one_epoch C₂ fuel s₂ r₂ ∧
    Except.map (Option.map fun t => t.1.meanReturn) (train_one_epoch C₁ fuel s₁ r₁) =
      Except.map (Option.map fun t => t.1.meanReturn) (train_one_epoch C₂ fuel s₂ r₂) ∧
    train C₁ fuel epochs = train C₂ fuel epochs ∧
    train C₁ fuel epochs = trainLoop C₁ fuel epochs 0 (C₁.seedEnv 0) (C₁.seedRng 0) [] := by
  subst hC; subst hs; subst hr
  exact ⟨rfl, rfl, rfl, rfl⟩

/-- Witness for C9 at the constant collaborator. -/
theorem epoch_deterministic_under_seed_witness :
    train_one_epoch Ctriv 1 0 0 = train_one_epoch Ctriv 1 0 0 ∧
    Except.map (Option.map fun t => t.1.meanReturn) (train_one_epoch Ctriv 1 0 0) =
      Except.map (Option.map fun t => t.1.meanReturn) (train_one_epoch Ctriv 1 0 0) ∧
    train Ctriv 1 1 = train Ctriv 1 1 ∧
    train Ctriv 1 1 = trainLoop Ctriv 1 1 0 (Ctriv.seedEnv 0) (Ctriv.seedRng 0) [] :=
  epoch_deterministic_under_seed Ctriv Ctriv 1 1 0 0 0 0 rfl rfl rfl

/-- Claim C10: every successful call of the episode roller records at least
one trajectory step — the loop body runs before the termination flag is
checked — and the three returned per-timestep sequences (returns,
log-probabilities, value estimates) have equal lengths. -/
theorem episode_records_at_least_one_step (C : Collab ε S R) (fuel : Nat) (s : S) (rng : R)
    (ars lps vals : List ℚ) (ret : ℚ) (s₁ : S) (rng₁ : R)
    (h : run_one_episode C fuel s rng = .ok (some (ars, lps, vals, ret, s₁, rng₁))) :
    ars.length = lps.length ∧ lps.length = vals.length ∧ 1 ≤ ars.length := by
  rw [run_one_episode] at h
  cases hreset : C.reset s with
  | error e => simp [hreset] at h
  | ok p =>
    obtain ⟨obs, s₂⟩ := p
    simp only [hreset] at h
    cases hloop : runEpisodeLoop C fuel obs s₂ rng with
    | error e => simp [hloop] at h
    | ok o =>
      cases o with
      | none => simp [hloop] at h
      | some q =>
        obtain ⟨rewards, lps₂, vals₂, s₃, rng₃⟩ := q
        simp [hloop] at h
        obtain ⟨h1, h2, h3, -, -, -⟩ := h
        have hlen := runEpisodeLoop_lengths C fuel obs s₂ rng rewards lps₂ vals₂ s₃ rng₃ hloop
        subst h1; subst h2; subst h3
        obtain ⟨ha, hb, hc⟩ := hlen
        exact ⟨by rw [List.length_replicate]; omega, by omega,
          by rw [List.length_replicate]; omega⟩

/-- Witness for C10 at the constant one-step collaborator. -/
theorem episode_records_at_least_one_step_witness :
    run_one_episode Ctriv 1 0 0 = .ok (some ([1], [-1], [5], 1, 0, 0)) ∧
    (([(1 : ℚ)]).length = ([(-1 : ℚ)]).length ∧
      ([(-1 : ℚ)]).length = ([(5 : ℚ)]).length ∧ 1 ≤ ([(1 : ℚ)]).length) :=
  ⟨ctriv_episode 0 0 0,
    episode_records_at_least_one_step Ctriv 1 0 0 [1] [-1] [5] 1 0 0 (ctriv_episode 0 0 0)⟩

/-- Claim C4: on the batch with returns `[1, 2]` and value estimates
`[1, 2]` — every estimate exactly equal to its return — the source's value
loss is `1/2`, not the `0` that the paired mean squared error of the spec
(and of the function's own docstring) yields: the stacked `(2, 1)` estimate
tensor broadcasts against the `(2,)` returns tensor. -/
theorem value_loss_broadcast_bug :
    calculate_value_fn_loss [1, 2] [1, 2] = 1 / 2 ∧
    value_fn_loss_spec [1, 2] [1, 2] = 0 ∧
    (1 / 2 : ℚ) ≠ 0 := by
  refine ⟨?_, ?_, by norm_num⟩
  · norm_num [calculate_value_fn_loss]
  · norm_num [value_fn_loss_spec, listMean]

/-- Counterexample to claim C1: under the constant collaborator (returns 1,
value estimates 5, log-probabilities −1) the epoch's policy loss is `1`,
whereas a policy loss computed from baseline-subtracted returns would be
`-4`: the critic's estimate is not subtracted anywhere in the policy-loss
path. -/
theorem policy_loss_no_baseline_counterexample :
    (epochResultOf (train_one_epoch Ctriv 1 0 0)).map EpochResult.policyLoss = some 1 ∧
    (epochResultOf (train_one_epoch Ctriv 1 0 0)).map
      (fun res => policy_loss_with_baseline res.logProbs res.actionReturns res.valueEstimates) =
      some (-4) ∧
    some (1 : ℚ) ≠ some (-4 : ℚ) := by
  have h : train_one_epoch Ctriv 1 0 0 = .ok (some (resTriv, 0, 0)) := ctriv_epoch 0 0 0
  rw [h]
  refine ⟨rfl, ?_, by simp only [ne_eq, Option.some.injEq]; norm_num⟩
  show some (policy_loss_with_baseline (List.replicate 200 (-1)) (List.replicate 200 1)
    (List.replicate 200 5)) = some (-4)
  rw [policy_loss_with_baseline, List.zipWith_replicate, min_self, calculate_policy_fn_loss,
    List.zipWith_replicate, min_self, listMean, List.sum_replicate, nsmul_eq_mul,
    List.length_replicate]
  norm_num

/-- A successful epoch's result fields satisfy their defining equations: the
policy loss is computed from the batch log-probabilities and the raw batch
returns, the value loss from the raw returns and the value estimates, and
the update trace is `updateOps`. -/
theorem train_one_epoch_fields (C : Collab ε S R) (fuel : Nat) (s : S) (rng : R)
    (res : EpochResult) (s₁ : S) (rng₁ : R)
    (h : train_one_epoch C fuel s rng = .ok (some (res, s₁, rng₁))) :
    res.policyLoss = calculate_policy_fn_loss res.logProbs res.actionReturns ∧
    res.valueLoss = calculate_value_fn_loss res.actionReturns res.valueEstimates ∧
    res.trace = updateOps res.valueLoss res.policyLoss := by
  rw [train_one_epoch] at h
  cases hE : episodesLoop C fuel 200 s rng [] [] [] [] with
  | error e => simp [hE] at h
  | ok o =>
    cases o with
    | none => simp [hE] at h
    | some p =>
      obtain ⟨aR, aL, aV, aE, s₂, rng₂⟩ := p
      simp only [hE] at h
      obtain ⟨h1, -, -⟩ := by
        simpa using h
      subst h1
      exact ⟨rfl, rfl, rfl⟩

/-- Claim C1 (amended): in every epoch update the policy loss is computed
from the log-probabilities and the raw Monte-Carlo returns of the batch —
the critic's value estimates are not subtracted as a baseline; the value
estimates enter only the value loss. -/
theorem policy_loss_uses_raw_returns (C : Collab ε S R) (fuel : Nat) (s : S) (rng : R)
    (res : EpochResult) (s₁ : S) (rng₁ : R)
    (h : train_one_epoch C fuel s rng = .ok (some (res, s₁, rng₁))) :
    res.policyLoss = calculate_policy_fn_loss res.logProbs res.actionReturns ∧
    res.valueLoss = calculate_value_fn_loss res.actionReturns res.valueEstimates :=
  ⟨(train_one_epoch_fields C fuel s rng res s₁ rng₁ h).1,
    (train_one_epoch_fields C fuel s rng res s₁ rng₁ h).2.1⟩

/-- Witness for the amended C1 at the constant collaborator. -/
theorem policy_loss_uses_raw_returns_witness :
    resTriv.policyLoss = calculate_policy_fn_loss resTriv.logProbs resTriv.actionReturns ∧
    resTriv.valueLoss = calculate_value_fn_loss resTriv.actionReturns resTriv.valueEstimates :=
  policy_loss_uses_raw_returns Ctriv 1 0 0 resTriv 0 0 (ctriv_epoch 0 0 0)

/-- Ordering facts about the update-operation sequence: every optimizer step
precedes every `zero_grad`, and no `zero_grad` occurs strictly between two
backward passes. -/
theorem updateOps_order (vl pl : ℚ) :
    (∀ (i j : Nat) (hi : i < (updateOps vl pl).length) (hj : j < (updateOps vl pl).length),
      ((updateOps vl pl).get ⟨i, hi⟩).isStepOp = true →
      ((updateOps vl pl).get ⟨j, hj⟩).isZeroOp = true → i < j) ∧
    (∀ (i j k : Nat) (hi : i < (updateOps vl pl).length) (hj : j < (updateOps vl pl).length)
      (hk : k < (updateOps vl pl).length),
      ((updateOps vl pl).get ⟨i, hi⟩).isBackwardOp = true →
      ((updateOps vl pl).get ⟨k, hk⟩).isBackwardOp = true →
      i < j → j < k → ((updateOps vl pl).get ⟨j, hj⟩).isZeroOp = false) := by
  constructor
  · intro i j hi hj
    simp only [updateOps, List.length_cons, List.length_nil] at hi hj
    interval_cases i <;> interval_cases j <;> intro hsi hzj <;>
      first
        | omega
        | exact absurd hsi Bool.false_ne_true
        | exact absurd hzj Bool.false_ne_true
  · intro i j k hi hj hk
    simp only [updateOps, List.length_cons, List.length_nil] at hi hj hk
    interval_cases i <;> interval_cases j <;> interval_cases k <;> intro hbi hbk hij hjk <;>
      first
        | rfl
        | omega
        | exact absurd hbi Bool.false_ne_true
        | exact absurd hbk Bool.false_ne_true

/-- Claim C6: in every successful epoch update the operation trace is
exactly: value-loss backward, value optimizer step, policy-loss backward,
policy optimizer step, then the two `zero_grad` calls; hence every
`zero_grad` comes only after both optimizer steps, and no `zero_grad`
occurs between the two backward passes. -/
theorem epoch_update_order (C : Collab ε S R) (fuel : Nat) (s : S) (rng : R)
    (res : EpochResult) (s₁ : S) (rng₁ : R)
    (h : train_one_epoch C fuel s rng = .ok (some (res, s₁, rng₁))) :
    res.trace = [.backward .value res.valueLoss, .stepOpt .value,
                 .backward .policy res.policyLoss, .stepOpt .policy,
                 .zeroGrad .value, .zeroGrad .policy] ∧
    (∀ (i j : Nat) (hi : i < res.trace.length) (hj : j < res.trace.length),
      (res.trace.get ⟨i, hi⟩).isStepOp = true →
      (res.trace.get ⟨j, hj⟩).isZeroOp = true → i < j) ∧
    (∀ (i j k : Nat) (hi : i < res.trace.length) (hj : j < res.trace.length)
      (hk : k < res.trace.length),
      (res.trace.get ⟨i, hi⟩).isBackwardOp = true →
      (res.trace.get ⟨k, hk⟩).isBackwardOp = true →
      i < j → j < k → (res.trace.get ⟨j, hj⟩).isZeroOp = false) := by
  have ht := (train_one_epoch_fields C fuel s rng res s₁ rng₁ h).2.2
  rw [ht]
  exact ⟨rfl, (updateOps_order res.valueLoss res.policyLoss).1,
    (updateOps_order res.valueLoss res.policyLoss).2⟩

/-- Witness for C6 at the constant collaborator. -/
theorem epoch_update_order_witness :
    train_one_epoch Ctriv 1 0 0 = .ok (some (resTriv, 0, 0)) ∧
    resTriv.trace = [.backward .value resTriv.valueLoss, .stepOpt .value,
                     .backward .policy resTriv.policyLoss, .stepOpt .policy,
                     .zeroGrad .value, .zeroGrad .policy] :=
  ⟨ctriv_epoch 0 0 0, (epoch_update_order Ctriv 1 0 0 resTriv 0 0 (ctriv_epoch 0 0 0)).1⟩

/-- Claim C5: a successful epoch runs exactly 200 episodes sequentially:
the per-episode view has exactly 200 records, the epoch batch is their
per-timestep returns, log-probabilities and value estimates concatenated in
episode order, the 200 per-episode total returns are collected, and the
returned mean is their sum divided by 200. -/
theorem epoch_runs_200_episodes (C : Collab ε S R) (fuel : Nat) (s : S) (rng : R)
    (eps : List (List ℚ × List ℚ × List ℚ × ℚ)) (s₁ : S) (rng₁ : R)
    (h : runEpisodes C fuel 200 s rng = .ok (some (eps, s₁, rng₁))) :
    eps.length = 200 ∧
    ∃ res : EpochResult,
      train_one_epoch C fuel s rng = .ok (some (res, s₁, rng₁)) ∧
      res.actionReturns = (eps.map fun t => t.1).flatten ∧
      res.logProbs = (eps.map fun t => t.2.1).flatten ∧
      res.valueEstimates = (eps.map fun t => t.2.2.1).flatten ∧
      res.episodeReturns = eps.map (fun t => t.2.2.2) ∧
      res.meanReturn = (eps.map fun t => t.2.2.2).sum / 200 := by
  have hlen := runEpisodes_length C fuel 200 s rng eps s₁ rng₁ h
  refine ⟨hlen, ?_⟩
  have hE := episodesLoop_eq_runEpisodes C fuel 200 s rng [] [] [] []
  rw [h] at hE
  simp only [List.nil_append] at hE
  refine ⟨{ actionReturns := (eps.map fun t => t.1).flatten,
            logProbs := (eps.map fun t => t.2.1).flatten,
            valueEstimates := (eps.map fun t => t.2.2.1).flatten,
            episodeReturns := eps.map fun t => t.2.2.2,
            policyLoss := calculate_policy_fn_loss ((eps.map fun t => t.2.1).flatten)
              ((eps.map fun t => t.1).flatten),
            valueLoss := calculate_value_fn_loss ((eps.map fun t => t.1).flatten)
              ((eps.map fun t => t.2.2.1).flatten),
            trace := updateOps
              (calculate_value_fn_loss ((eps.map fun t => t.1).flatten)
                ((eps.map fun t => t.2.2.1).flatten))
              (calculate_policy_fn_loss ((eps.map fun t => t.2.1).flatten)
                ((eps.map fun t => t.1).flatten)),
            meanReturn := listMean (eps.map fun t => t.2.2.2) },
    ?_, rfl, rfl, rfl, rfl, ?_⟩
  · rw [train_one_epoch, hE]
  · show listMean (eps.map fun t => t.2.2.2) = (eps.map fun t => t.2.2.2).sum / 200
    rw [listMean, List.length_map, hlen]
    norm_num

/-- Witness for C5 at the constant collaborator. -/
theorem epoch_runs_200_episodes_witness :
    runEpisodes Ctriv 1 200 0 0 =
      .ok (some (List.replicate 200 ([1], [-1], [5], (1 : ℚ)), 0, 0)) ∧
    (List.replicate 200 ([(1 : ℚ)], [(-1 : ℚ)], [(5 : ℚ)], (1 : ℚ))).length = 200 :=
  ⟨ctriv_runEpisodes 0 200 0 0,
    (epoch_runs_200_episodes Ctriv 1 0 0 (List.replicate 200 ([1], [-1], [5], 1)) 0 0
      (ctriv_runEpisodes 0 200 0 0)).1⟩

/-- Claim C7: errors raised by any collaborator propagate unmodified.
An error from `reset`, from the value model, from the policy/sampler, or
from the environment step aborts the episode with that same error; if the
first `j < 200` episodes succeed and the next one errors, the whole epoch
errors identically; and an epoch error aborts the remaining training run
with the same error. -/
theorem errors_propagate_unmodified :
    (∀ (ε S R : Type) (C : Collab ε S R) (fuel : Nat) (s : S) (rng : R) (e : ε),
      C.reset s = .error e → run_one_episode C fuel s rng = .error e) ∧
    (∀ (ε S R : Type) (C : Collab ε S R) (fuel : Nat) (s : S) (rng : R) (obs : Observation)
      (s₁ : S) (e : ε),
      C.reset s = .ok (obs, s₁) → C.valueModel obs = .error e →
      run_one_episode C (fuel + 1) s rng = .error e) ∧
    (∀ (ε S R : Type) (C : Collab ε S R) (fuel : Nat) (s : S) (rng : R) (obs : Observation)
      (s₁ : S) (v : ℚ) (e : ε),
      C.reset s = .ok (obs, s₁) → C.valueModel obs = .ok v →
      C.policyAct obs rng = .error e →
      run_one_episode C (fuel + 1) s rng = .error e) ∧
    (∀ (ε S R : Type) (C : Collab ε S R) (fuel : Nat) (s : S) (rng : R) (obs : Observation)
      (s₁ : S) (v : ℚ) (a : Nat) (lp : ℚ) (rng₁ : R) (e : ε),
      C.reset s = .ok (obs, s₁) → C.valueModel obs = .ok v →
      C.policyAct obs rng = .ok (a, lp, rng₁) → C.step s₁ a = .error e →
      run_one_episode C (fuel + 1) s rng = .error e) ∧
    (∀ (ε S R : Type) (C : Collab ε S R) (fuel j : Nat) (s : S) (rng : R)
      (pre : List (List ℚ × List ℚ × List ℚ × ℚ)) (s₁ : S) (rng₁ : R) (e : ε),
      j < 200 → runEpisodes C fuel j s rng = .ok (some (pre, s₁, rng₁)) →
      run_one_episode C fuel s₁ rng₁ = .error e →
      train_one_epoch C fuel s rng = .error e) ∧
    (∀ (ε S R : Type) (C : Collab ε S R) (fuel n epoch : Nat) (s : S) (rng : R)
      (lines : List String) (e : ε),
      train_one_epoch C fuel s rng = .error e →
      trainLoop C fuel (n + 1) epoch s rng lines = .error e) := by
  refine ⟨?_, ?_, ?_, ?_, ?_, ?_⟩
  · intro ε S R C fuel s rng e h
    simp [run_one_episode, h]
  · intro ε S R C fuel s rng obs s₁ e hreset hv
    simp [run_one_episode, hreset, runEpisodeLoop, hv]
  · intro ε S R C fuel s rng obs s₁ v e hreset hv ha
    simp [run_one_episode, hreset, runEpisodeLoop, hv, ha]
  · intro ε S R C fuel s rng obs s₁ v a lp rng₁ e hreset hv ha hs
    simp [run_one_episode, hreset, runEpisodeLoop, hv, ha, hs]
  · intro ε S R C fuel j s rng pre s₁ rng₁ e hj hpre herr
    rw [train_one_epoch,
      episodesLoop_error C fuel e j 200 s rng [] [] [] [] pre s₁ rng₁ hj hpre herr]
  · intro ε S R C fuel n epoch s rng lines e h
    simp [trainLoop, h]

/-- Witness for C7 at the collaborator whose environment step always raises. -/
theorem errors_propagate_unmodified_witness :
    run_one_episode CbadStep 1 0 0 = .error "boom" ∧
    train_one_epoch CbadStep 1 0 0 = .error "boom" ∧
    trainLoop CbadStep 1 1 0 0 0 [] = .error "boom" := by
  have h1 : run_one_episode CbadStep 1 0 0 = .error "boom" :=
    errors_propagate_unmodified.2.2.2.1 String Nat Nat CbadStep 0 0 0 [] 0 5 0 (-1) 0 "boom"
      rfl rfl rfl rfl
  have h2 : train_one_epoch CbadStep 1 0 0 = .error "boom" :=
    errors_propagate_unmodified.2.2.2.2.1 String Nat Nat CbadStep 1 0 0 0 [] 0 0 "boom"
      (by omega) rfl h1
  exact ⟨h1, h2,
    errors_propagate_unmodified.2.2.2.2.2 String Nat Nat CbadStep 1 0 0 0 0 [] "boom" h2⟩

/-- Claim C8: a successful training run of `epochs` epochs writes exactly
`epochs` lines to standard output; line `k` is
`'epoch: %3d \t return: %.3f' % (k, mean return of epoch k)` with the
zero-based epoch index `k` (the indices are `range' 0 epochs`), and the
`%.3f` field always carries exactly three decimal digits. -/
theorem train_prints_one_line_per_epoch (C : Collab ε S R) (fuel epochs : Nat)
    (lines : List String) (s₁ : S) (rng₁ : R)
    (h : train C fuel epochs = .ok (some (lines, s₁, rng₁))) :
    lines.length = epochs ∧
    (∃ ms : List ℚ, ms.length = epochs ∧
      lines = List.zipWith formatLine (List.range' 0 epochs) ms) ∧
    ∀ q : ℚ, ∃ a b : String, formatFixed3 q = a ++ "." ++ b ∧ b.length = 3 := by
  rw [train] at h
  obtain ⟨ms, hlen, hl⟩ :=
    trainLoop_lines C fuel epochs 0 (C.seedEnv 0) (C.seedRng 0) [] lines s₁ rng₁ h
  simp only [List.nil_append] at hl
  refine ⟨?_, ⟨ms, hlen, hl⟩, formatFixed3_decomp⟩
  rw [hl, List.length_zipWith, List.length_range', hlen, min_self]

/-- One epoch of the driver loop under the constant collaborator appends the
formatted line for mean return `1`. -/
theorem ctriv_train_one (epoch s rng : Nat) (lines : List String) :
    trainLoop Ctriv 1 1 epoch s rng lines = .ok (some (lines ++ [formatLine epoch 1], s, rng)) := by
  have h : train_one_epoch Ctriv 1 s rng = .ok (some (resTriv, s, rng)) := ctriv_epoch 0 s rng
  simp [trainLoop, h]
  rfl

/-- A one-epoch training run under the constant collaborator prints exactly
the line for epoch 0. -/
theorem ctriv_train : train Ctriv 1 1 = .ok (some ([formatLine 0 1], 0, 0)) := by
  rw [train]
  exact ctriv_train_one 0 0 0 []

/-- Witness for C8 at the constant collaborator, one epoch. -/
theorem train_prints_one_line_per_epoch_witness :
    train Ctriv 1 1 = .ok (some ([formatLine 0 1], 0, 0)) ∧
    ([formatLine 0 (1 : ℚ)]).length = 1 :=
  ⟨ctriv_train, (train_prints_one_line_per_epoch Ctriv 1 1 [formatLine 0 1] 0 0 ctriv_train).1⟩
